import Mathlib

/-!
Verification of the Multi-Agent-Interviewer core against its specification.

The Python sources are shallowly embedded:

* `src/src/graph/state.py` — the interview state record and its constructor.
* `src/src/graph/workflow.py` — the LangGraph workflow.  The compiled graph
  has entry point `technical`; `graph.invoke` executes a node, then that
  node's conditional-edge function, moving to the returned node or stopping
  at `END`, with a bounded number of super-steps (LangGraph's default
  recursion limit, 25); exceeding the limit raises `GraphRecursionError`.
  This is modelled by `runGraph` with explicit fuel returning `Option`
  (`none` = the recursion-limit error).
* `src/src/agents/*.py` — every persona agent builds a prompt from the state
  and returns the LLM's reply.  The LLM is external and nondeterministic, so
  each agent is modelled as an oracle: an arbitrary function from the state
  to the reply text (the prompt is itself a function of the state, so this
  subsumes any dependence on the prompt).  Theorems quantify over the oracle.
* `src/src/agents/evaluation_agent.py` — `_parse_evaluation` is a pure
  function of the reply text and is embedded directly.
* `src/src/prompts/templates.py` — the prompt templates are Python format
  strings; each is embedded as the function that `str.format` denotes.

Python `str` values are sequences of code points; they are modelled as Lean
`String` (a packed `List Char`), and the Python string operations used by the
source (`strip`, `split('\n')`, `upper`, `lstrip`, slicing, `in`) are defined
below on the underlying character list.  Python `int` counters start at 0 and
are only incremented, so they are modelled as `Nat`; the parsed evaluation
score is modelled as `Int` because the source clamps it with
`min(100, max(0, _))`.
-/

/-! ## Data model (src/src/graph/state.py) -/

/-- `Literal["technical", "hr", "manager"]` — the tag of a persona round. -/
inductive AgentType where
  | technical
  | hr
  | manager
deriving DecidableEq, Repr

/-- `Literal["agent", "user"]` — who authored a transcript message. -/
inductive Role where
  | agent
  | user
deriving DecidableEq, Repr

/-- `Literal["technical", "hr", "manager", "complete", "evaluation"]` —
the `current_agent` field of the state. -/
inductive CurrentAgent where
  | technical
  | hr
  | manager
  | complete
  | evaluation
deriving DecidableEq, Repr

/-- `class Message(BaseModel)` — one entry of the conversation history. -/
structure Message where
  role : Role
  content : String
  agent_type : Option AgentType
deriving DecidableEq, Repr

/-- `class QuestionAnswer(BaseModel)` — one finalized question/answer pair. -/
structure QuestionAnswer where
  question : String
  answer : Option String
  agent_type : AgentType
deriving DecidableEq, Repr

/-- The structured result of `EvaluationAgent._parse_evaluation`. -/
structure Evaluation where
  score : Int
  strengths : List String
  weaknesses : List String
  suggestions : List String
  overall_feedback : String
deriving DecidableEq, Repr

/-- `class InterviewState(TypedDict)` — the whole interview state. -/
structure InterviewState where
  candidate_name : String
  job_role : String
  experience_level : String
  resume_text : Option String
  current_agent : CurrentAgent
  technical_questions_asked : Nat
  hr_questions_asked : Nat
  manager_questions_asked : Nat
  conversation_history : List Message
  qa_pairs : List QuestionAnswer
  is_complete : Bool
  current_question : Option String
  last_answer : Option String
  evaluation : Option Evaluation
deriving DecidableEq, Repr

/-- `create_initial_state` (src/src/graph/state.py, lines 59-92). -/
def create_initial_state (candidate_name job_role experience_level : String)
    (resume_text : Option String) : InterviewState :=
  { candidate_name := candidate_name
    job_role := job_role
    experience_level := experience_level
    resume_text := resume_text
    current_agent := CurrentAgent.technical
    technical_questions_asked := 0
    hr_questions_asked := 0
    manager_questions_asked := 0
    conversation_history := []
    qa_pairs := []
    is_complete := false
    current_question := none
    last_answer := none
    evaluation := none }

/-- The round maxima of `config/settings.py` (`MAX_TECHNICAL_QUESTIONS`,
`MAX_HR_QUESTIONS`, `MAX_MANAGER_QUESTIONS`), read from the environment
with defaults 6, 3, 2. -/
structure Settings where
  MAX_TECHNICAL_QUESTIONS : Nat
  MAX_HR_QUESTIONS : Nat
  MAX_MANAGER_QUESTIONS : Nat
deriving DecidableEq, Repr

/-- The default configuration `{technical: 6, hr: 3, manager: 2}`. -/
def defaultSettings : Settings :=
  { MAX_TECHNICAL_QUESTIONS := 6, MAX_HR_QUESTIONS := 3, MAX_MANAGER_QUESTIONS := 2 }

/-! ## Python string operations, on the code-point list of a `String` -/

/-- The characters removed by Python `str.strip()` with no argument
(ASCII whitespace; the source never feeds non-ASCII whitespace). -/
def pyIsSpace (c : Char) : Bool :=
  c == ' ' || c == '\t' || c == '\n' || c == '\x0d' || c == '\x0b' || c == '\x0c'

/-- Python `s.strip()`. -/
def pyStrip (s : String) : String :=
  String.mk (((s.data.dropWhile pyIsSpace).reverse.dropWhile pyIsSpace).reverse)

/-- Python `s.split('\n')` on the code-point list (keeps empty pieces). -/
def splitNlAux : List Char → List (List Char)
  | [] => [[]]
  | c :: rest =>
    if c == '\n' then [] :: splitNlAux rest
    else
      match splitNlAux rest with
      | [] => [[c]]
      | piece :: pieces => (c :: piece) :: pieces

/-- Python `s.split('\n')`. -/
def pySplitNl (s : String) : List String :=
  (splitNlAux s.data).map String.mk

/-- Python `s.upper()` (ASCII case mapping, which covers the source's data). -/
def pyUpper (s : String) : String :=
  String.mk (s.data.map Char.toUpper)

/-- Python `pat in s` — substring containment. -/
def containsSub (s pat : String) : Bool :=
  s.data.tails.any (fun t => pat.data.isPrefixOf t)

/-- The first maximal run of ASCII digits in a character list — what
`re.search(r'(\d+)', line)` matches (group 1). -/
def firstDigitRun : List Char → Option (List Char)
  | [] => none
  | c :: rest =>
    if c.isDigit then some (c :: rest.takeWhile Char.isDigit)
    else firstDigitRun rest

/-- `int(...)` on a run of ASCII digits. -/
def digitsToNat (ds : List Char) : Nat :=
  ds.foldl (fun n c => 10 * n + (c.toNat - 48)) 0

/-- Python `line.lstrip('â€¢-*')` — strips any leading characters from the
set {'â', '€', '¢', '-', '*'} (the mojibake bullet plus dash and star). -/
def lstripBullets (s : String) : String :=
  String.mk (s.data.dropWhile
    (fun c => c == 'â' || c == '€' || c == '¢' || c == '-' || c == '*'))

/-! ## Evaluation parsing (src/src/agents/evaluation_agent.py, lines 91-152) -/

/-- The `current_section` pointer of `_parse_evaluation`. -/
inductive EvalSection where
  | strengths
  | weaknesses
  | suggestions
  | overall_feedback
deriving DecidableEq, Repr

/-- The initial `evaluation` dict of `_parse_evaluation`. -/
def initEvaluation : Evaluation :=
  { score := 0, strengths := [], weaknesses := [], suggestions := [], overall_feedback := "" }

/-- One iteration of the `for line in lines` loop of `_parse_evaluation`,
updating the `(evaluation, current_section)` accumulator. -/
def parseEvalLine (acc : Evaluation × Option EvalSection) (rawLine : String) :
    Evaluation × Option EvalSection :=
  let line := pyStrip rawLine
  let up := pyUpper line
  if containsSub up "SCORE:" || containsSub up "OVERALL SCORE:" then
    match firstDigitRun line.data with
    | some ds => ({ acc.1 with score := min 100 (max 0 (Int.ofNat (digitsToNat ds))) }, acc.2)
    | none => acc
  else if containsSub up "STRENGTHS:" then
    (acc.1, some EvalSection.strengths)
  else if containsSub up "WEAKNESSES:" || containsSub up "AREAS FOR IMPROVEMENT:" then
    (acc.1, some EvalSection.weaknesses)
  else if containsSub up "SUGGESTIONS:" || containsSub up "RECOMMENDATIONS:" then
    (acc.1, some EvalSection.suggestions)
  else if containsSub up "OVERALL FEEDBACK:" || containsSub up "SUMMARY:" then
    (acc.1, some EvalSection.overall_feedback)
  else if !line.data.isEmpty then
    match acc.2 with
    | none => acc
    | some sec =>
      let cleaned := pyStrip (lstripBullets line)
      if cleaned.data.isEmpty then acc
      else
        match sec with
        | EvalSection.overall_feedback =>
          ({ acc.1 with overall_feedback := acc.1.overall_feedback ++ cleaned ++ " " }, acc.2)
        | EvalSection.strengths =>
          ({ acc.1 with strengths := acc.1.strengths ++ [cleaned] }, acc.2)
        | EvalSection.weaknesses =>
          ({ acc.1 with weaknesses := acc.1.weaknesses ++ [cleaned] }, acc.2)
        | EvalSection.suggestions =>
          ({ acc.1 with suggestions := acc.1.suggestions ++ [cleaned] }, acc.2)
  else acc

/-- `EvaluationAgent._parse_evaluation`: scan the stripped response line by
line, then fall back to the raw text as overall feedback when both the
strengths and the weaknesses lists stayed empty. -/
def parse_evaluation (evaluation_text : String) : Evaluation :=
  let lines := pySplitNl (pyStrip evaluation_text)
  let result := (lines.foldl parseEvalLine (initEvaluation, none)).1
  if result.strengths.isEmpty && result.weaknesses.isEmpty then
    { result with overall_feedback := evaluation_text }
  else result

/-- The evaluation accumulated by the line loop of `_parse_evaluation`,
before the final empty-sections fallback. -/
def parsedAccum (text : String) : Evaluation :=
  (((pySplitNl (pyStrip text)).foldl parseEvalLine (initEvaluation, none))).1

/-! ## Prompt templates (src/src/prompts/templates.py)

The Python constants are `str.format` templates; each is embedded as the
function that formatting it denotes (the placeholders become parameters,
spliced into the literal text).  Apostrophes and quotes of the source text
are written with string escapes. -/

/-- `TECHNICAL_AGENT_SYSTEM_PROMPT` (templates.py lines 6-31), formatted. -/
def TECHNICAL_AGENT_SYSTEM_PROMPT
    (candidate_name job_role experience_level conversation_history : String) : String :=
  "You are a Senior Technical Interviewer with 10+ years of experience in software engineering.\n\nYour personality:\n- Direct, analytical, and detail-oriented\n- You value problem-solving skills and technical depth\n- You ask follow-up questions based on candidate responses\n- You\x27re friendly but professional, focusing on technical competence\n\nYour role:\n- Ask up to 6 technical questions relevant to the "
    ++ job_role ++ " position at " ++ experience_level
    ++ " level\n- Questions should cover: coding skills, system design, algorithms, best practices, and problem-solving\n- Tailor difficulty to "
    ++ experience_level
    ++ " level expectations\n- Adapt your questions based on the candidate\x27s previous answers\n- Keep questions clear and specific\n- DO NOT include question numbers in your questions - just ask the question directly\n\nCandidate\x27s name: "
    ++ candidate_name ++ "\nJob role: " ++ job_role ++ "\nExperience level: " ++ experience_level
    ++ "\n\nPrevious conversation context:\n" ++ conversation_history
    ++ "\n\nGenerate ONE technical question. Make it relevant, thoughtful, and appropriate for a "
    ++ experience_level ++ " " ++ job_role
    ++ " position.\nDo not prefix the question with \"Question X:\" - just state the question directly.\n"

/-- `TECHNICAL_AGENT_FIRST_QUESTION_PROMPT` (templates.py lines 33-37), formatted. -/
def TECHNICAL_AGENT_FIRST_QUESTION_PROMPT
    (candidate_name job_role experience_level : String) : String :=
  "You are starting the technical interview for " ++ candidate_name
    ++ " who is applying for the " ++ experience_level ++ " " ++ job_role
    ++ " position.\n\nIntroduce yourself briefly as the technical interviewer named \"Alex\" and ask your first technical question.\nKeep it warm but professional. The question should assess foundational technical knowledge relevant to a "
    ++ experience_level ++ " " ++ job_role ++ ".\n"

/-- `HR_AGENT_SYSTEM_PROMPT` (templates.py lines 40-65), formatted. -/
def HR_AGENT_SYSTEM_PROMPT
    (candidate_name job_role experience_level conversation_history : String) : String :=
  "You are an experienced HR Manager named \"Olivia\" specializing in talent acquisition and cultural fit assessment.\n\nYour personality:\n- Warm, empathetic, and people-focused\n- You care about communication skills, team fit, and soft skills\n- You create a comfortable environment for candidates\n- You\x27re excellent at reading between the lines\n\nYour role:\n- Ask up to 3 HR questions to assess cultural fit and soft skills\n- Questions should cover: teamwork, communication, conflict resolution, work-life balance, motivation\n- Tailor expectations to "
    ++ experience_level
    ++ " level\n- Listen carefully to understand the candidate\x27s values and work style\n- Keep questions conversational but insightful\n- DO NOT include question numbers in your questions - just ask the question directly\n\nCandidate\x27s name: "
    ++ candidate_name ++ "\nJob role: " ++ job_role ++ "\nExperience level: " ++ experience_level
    ++ "\n\nPrevious conversation context:\n" ++ conversation_history
    ++ "\n\nGenerate ONE HR question. Make it thoughtful and designed to understand the candidate\x27s personality and cultural fit for a "
    ++ experience_level
    ++ " role.\nDo not prefix the question with \"Question X:\" - just state the question directly.\n"

/-- `HR_AGENT_FIRST_QUESTION_PROMPT` (templates.py lines 67-72), formatted. -/
def HR_AGENT_FIRST_QUESTION_PROMPT
    (candidate_name job_role experience_level : String) : String :=
  "The technical round has concluded. You are now taking over as the HR Manager named \"Olivia\".\n\nIntroduce yourself warmly to "
    ++ candidate_name
    ++ " as Olivia, the HR Manager, and transition smoothly from the technical interview.\nAsk your first HR question focused on cultural fit or soft skills for the "
    ++ experience_level ++ " " ++ job_role
    ++ " position.\nRemember: You are Olivia. Use your name when introducing yourself.\n"

/-- `MANAGER_AGENT_SYSTEM_PROMPT` (templates.py lines 75-99), formatted.
The missing space in `"Rahul"who` reproduces the source text. -/
def MANAGER_AGENT_SYSTEM_PROMPT
    (candidate_name job_role experience_level conversation_history : String) : String :=
  "You are a Hiring Manager named \"Rahul\"who will be the direct supervisor for this role.\n\nYour personality:\n- Strategic, results-oriented, and visionary\n- You focus on leadership potential and strategic thinking\n- You assess long-term fit and growth potential\n- You\x27re decisive but fair\n\nYour role:\n- Ask up to 2 managerial questions to assess leadership and strategic thinking\n- Questions should cover: decision-making, handling ambiguity, career goals, team leadership\n- Evaluate if the candidate can grow into more responsibility at "
    ++ experience_level
    ++ " level\n- Keep questions high-level and forward-thinking\n- DO NOT include question numbers in your questions - just ask the question directly\n\nCandidate\x27s name: "
    ++ candidate_name ++ "\nJob role: " ++ job_role ++ "\nExperience level: " ++ experience_level
    ++ "\n\nPrevious conversation context:\n" ++ conversation_history
    ++ "\n\nGenerate ONE managerial question. Make it insightful and focused on leadership, strategy, or future potential appropriate for "
    ++ experience_level
    ++ " level.\nDo not prefix the question with \"Question X:\" - just state the question directly.\n"

/-- `MANAGER_AGENT_FIRST_QUESTION_PROMPT` (templates.py lines 101-106), formatted. -/
def MANAGER_AGENT_FIRST_QUESTION_PROMPT
    (candidate_name job_role experience_level : String) : String :=
  "The HR round has concluded. You are now conducting the final round as the Hiring Manager named \"Rahul\".\n\nIntroduce yourself to "
    ++ candidate_name ++ " as Rahul, the Hiring Manager for the "
    ++ experience_level ++ " " ++ job_role
    ++ " position.\nAsk your first question focused on strategic thinking, decision-making, or leadership potential appropriate for a "
    ++ experience_level
    ++ " role.\nRemember: You are Rahul. Use your name when introducing yourself.\n"

/-- The keys of the `prompts` dict of `get_agent_prompt` ("technical", "hr",
"manager"); other strings would raise a `KeyError`, and all call sites pass
one of these three. -/
inductive PersonaType where
  | technical
  | hr
  | manager
deriving DecidableEq, Repr

/-- The resume block that `get_agent_prompt` appends: empty when
`resume_text` is `None` or `""` (Python truthiness); otherwise the resume
sliced to its first 2000 code points, followed by the continuation marker
exactly when the resume is longer than 2000 code points
(templates.py lines 190-195). -/
def resume_context (resume_text : Option String) : String :=
  match resume_text with
  | none => ""
  | some rt =>
    if rt.data.isEmpty then ""
    else
      "\n\nCANDIDATE\x27S RESUME:\n" ++ String.mk (rt.data.take 2000) ++ "\n"
        ++ (if 2000 < rt.data.length then "...(resume continues)" else "")
        ++ "\n\nUse this resume information to ask more personalized and relevant questions based on the candidate\x27s actual experience and skills."

/-- `get_agent_prompt` (templates.py lines 147-205): select the first-question
or regular template for the persona, format it, and append the resume block.
`question_number` is accepted (and formatted into nothing) exactly as in the
source, where no template mentions it. -/
def get_agent_prompt (agent_type : PersonaType)
    (candidate_name job_role experience_level : String) (question_number : Nat)
    (conversation_history : String) (is_first_question : Bool)
    (resume_text : Option String) : String :=
  let formatted_prompt :=
    match agent_type, is_first_question with
    | PersonaType.technical, true =>
      TECHNICAL_AGENT_FIRST_QUESTION_PROMPT candidate_name job_role experience_level
    | PersonaType.technical, false =>
      TECHNICAL_AGENT_SYSTEM_PROMPT candidate_name job_role experience_level conversation_history
    | PersonaType.hr, true =>
      HR_AGENT_FIRST_QUESTION_PROMPT candidate_name job_role experience_level
    | PersonaType.hr, false =>
      HR_AGENT_SYSTEM_PROMPT candidate_name job_role experience_level conversation_history
    | PersonaType.manager, true =>
      MANAGER_AGENT_FIRST_QUESTION_PROMPT candidate_name job_role experience_level
    | PersonaType.manager, false =>
      MANAGER_AGENT_SYSTEM_PROMPT candidate_name job_role experience_level conversation_history
  formatted_prompt ++ resume_context resume_text

/-! ## Workflow (src/src/graph/workflow.py)

`InterviewWorkflow` owns four agents whose only state-relevant behavior is
the reply text of the LLM; the bundle of LLM replies is modelled as an
oracle record of arbitrary functions of the state, universally quantified
in every theorem. -/

/-- The LLM replies seen by the four agents.  `techAsk`, `hrAsk` and
`managerAsk` are the persona agents' `ask_question` results;
`evalResponse` is the raw completion that `EvaluationAgent.generate_evaluation`
parses.  Each may depend on the whole state (the prompts are functions of
the state, and the model is arbitrary). -/
structure Agents where
  techAsk : InterviewState → String
  hrAsk : InterviewState → String
  managerAsk : InterviewState → String
  evalResponse : InterviewState → String

/-- Python truthiness of the `current_question` field: `None` and `""` are
falsy (`state.get("current_question")`, `if state["current_question"]:`). -/
def optTruthy : Option String → Bool
  | none => false
  | some s => !s.data.isEmpty

/-- `InterviewWorkflow._technical_node` (workflow.py lines 82-111): generate a
question, set `current_question`, append an agent message tagged `technical`.
The node does NOT touch `current_agent` or any counter. -/
def technical_node (ag : Agents) (state : InterviewState) : InterviewState :=
  let question := ag.techAsk state
  { state with
    current_question := some question
    conversation_history := state.conversation_history ++
      [{ role := Role.agent, content := question, agent_type := some AgentType.technical }] }

/-- `InterviewWorkflow._hr_node` (workflow.py lines 113-143): like the
technical node, but also sets `current_agent = "hr"`. -/
def hr_node (ag : Agents) (state : InterviewState) : InterviewState :=
  let question := ag.hrAsk state
  { state with
    current_question := some question
    current_agent := CurrentAgent.hr
    conversation_history := state.conversation_history ++
      [{ role := Role.agent, content := question, agent_type := some AgentType.hr }] }

/-- `InterviewWorkflow._manager_node` (workflow.py lines 145-175). -/
def manager_node (ag : Agents) (state : InterviewState) : InterviewState :=
  let question := ag.managerAsk state
  { state with
    current_question := some question
    current_agent := CurrentAgent.manager
    conversation_history := state.conversation_history ++
      [{ role := Role.agent, content := question, agent_type := some AgentType.manager }] }

/-- `InterviewWorkflow._evaluation_node` (workflow.py lines 177-205): store
the parsed evaluation, set `is_complete = True` and
`current_agent = "evaluation"`. -/
def evaluation_node (ag : Agents) (state : InterviewState) : InterviewState :=
  let evaluation := parse_evaluation (ag.evalResponse state)
  { state with
    evaluation := some evaluation
    is_complete := true
    current_agent := CurrentAgent.evaluation }

/-- The `Literal["hr", "continue", "end"]` returned by `_route_from_technical`. -/
inductive TechRoute where
  | toHr
  | toContinue
  | toEnd
deriving DecidableEq, Repr

/-- `InterviewWorkflow._route_from_technical` (workflow.py lines 207-231). -/
def route_from_technical (cfg : Settings) (state : InterviewState) : TechRoute :=
  if cfg.MAX_TECHNICAL_QUESTIONS ≤ state.technical_questions_asked then TechRoute.toHr
  else if optTruthy state.current_question then TechRoute.toEnd
  else TechRoute.toContinue

/-- The `Literal["manager", "continue", "end"]` returned by `_route_from_hr`. -/
inductive HrRoute where
  | toManager
  | toContinue
  | toEnd
deriving DecidableEq, Repr

/-- `InterviewWorkflow._route_from_hr` (workflow.py lines 233-257). -/
def route_from_hr (cfg : Settings) (state : InterviewState) : HrRoute :=
  if cfg.MAX_HR_QUESTIONS ≤ state.hr_questions_asked then HrRoute.toManager
  else if optTruthy state.current_question then HrRoute.toEnd
  else HrRoute.toContinue

/-- The `Literal["evaluation", "continue", "end"]` returned by `_route_from_manager`. -/
inductive MgrRoute where
  | toEvaluation
  | toContinue
  | toEnd
deriving DecidableEq, Repr

/-- `InterviewWorkflow._route_from_manager` (workflow.py lines 259-283). -/
def route_from_manager (cfg : Settings) (state : InterviewState) : MgrRoute :=
  if cfg.MAX_MANAGER_QUESTIONS ≤ state.manager_questions_asked then MgrRoute.toEvaluation
  else if optTruthy state.current_question then MgrRoute.toEnd
  else MgrRoute.toContinue

/-- The nodes of the compiled LangGraph graph (workflow.py lines 27-80). -/
inductive GraphNode where
  | technical
  | hr
  | manager
  | evaluation
deriving DecidableEq, Repr

/-- Execution of the compiled graph: run the current node, then its
conditional-edge function, and either stop (`END`) or move to the returned
node.  `fuel` bounds the number of executed nodes (LangGraph's recursion
limit); running out of fuel models `GraphRecursionError` (`none`).  The
`evaluation` node has an unconditional edge to `END`. -/
def runGraph (ag : Agents) (cfg : Settings) :
    Nat → GraphNode → InterviewState → Option InterviewState
  | 0, _, _ => none
  | fuel + 1, GraphNode.technical, state =>
    let s1 := technical_node ag state
    match route_from_technical cfg s1 with
    | TechRoute.toHr => runGraph ag cfg fuel GraphNode.hr s1
    | TechRoute.toContinue => runGraph ag cfg fuel GraphNode.technical s1
    | TechRoute.toEnd => some s1
  | fuel + 1, GraphNode.hr, state =>
    let s1 := hr_node ag state
    match route_from_hr cfg s1 with
    | HrRoute.toManager => runGraph ag cfg fuel GraphNode.manager s1
    | HrRoute.toContinue => runGraph ag cfg fuel GraphNode.hr s1
    | HrRoute.toEnd => some s1
  | fuel + 1, GraphNode.manager, state =>
    let s1 := manager_node ag state
    match route_from_manager cfg s1 with
    | MgrRoute.toEvaluation => runGraph ag cfg fuel GraphNode.evaluation s1
    | MgrRoute.toContinue => runGraph ag cfg fuel GraphNode.manager s1
    | MgrRoute.toEnd => some s1
  | _ + 1, GraphNode.evaluation, state => some (evaluation_node ag state)

/-- `InterviewWorkflow.run_step` (workflow.py lines 334-346):
`self.graph.invoke(state)` — execute the graph from its entry point
`technical` under LangGraph's default recursion limit of 25 super-steps. -/
def run_step (ag : Agents) (cfg : Settings) (state : InterviewState) :
    Option InterviewState :=
  runGraph ag cfg 25 GraphNode.technical state

/-- The `agent_type` that `QuestionAnswer(...)` accepts for each
`current_agent` value; `"complete"` and `"evaluation"` are outside the
`Literal["technical", "hr", "manager"]` of the pydantic model, so
constructing the pair with them raises a `ValidationError`. -/
def roundTagOf : CurrentAgent → Option AgentType
  | CurrentAgent.technical => some AgentType.technical
  | CurrentAgent.hr => some AgentType.hr
  | CurrentAgent.manager => some AgentType.manager
  | CurrentAgent.complete => none
  | CurrentAgent.evaluation => none

/-- The `if/elif` counter increment of `process_answer`
(workflow.py lines 315-324). -/
def bumpCounter (state : InterviewState) : AgentType → InterviewState
  | AgentType.technical =>
    { state with technical_questions_asked := state.technical_questions_asked + 1 }
  | AgentType.hr =>
    { state with hr_questions_asked := state.hr_questions_asked + 1 }
  | AgentType.manager =>
    { state with manager_questions_asked := state.manager_questions_asked + 1 }

/-- `InterviewWorkflow.process_answer` (workflow.py lines 285-332): append the
candidate message; when `current_question` is truthy (non-`None` and
non-empty), append the Q&A pair and bump the current round's counter — a
`current_agent` outside the three persona tags makes the pydantic
`QuestionAnswer` constructor raise, modelled as `none`; finally clear
`current_question` and set `last_answer`. -/
def process_answer (state : InterviewState) (answer : String) :
    Option InterviewState :=
  let s1 : InterviewState := { state with
    conversation_history := state.conversation_history ++
      [{ role := Role.user, content := answer, agent_type := none }] }
  match s1.current_question with
  | some q =>
    if q.data.isEmpty then
      some { s1 with current_question := none, last_answer := some answer }
    else
      match roundTagOf s1.current_agent with
      | none => none
      | some tag =>
        let s2 : InterviewState := { s1 with
          qa_pairs := s1.qa_pairs ++ [{ question := q, answer := some answer, agent_type := tag }] }
        let s3 := bumpCounter s2 tag
        some { s3 with current_question := none, last_answer := some answer }
  | none => some { s1 with current_question := none, last_answer := some answer }

/-! ## Derived notions used by the claims -/

/-- The states visited by a caller that starts from `create_initial_state`
and interleaves `run_step` and `process_answer`, calling `process_answer`
only when a question is pending (the spec precondition for `answer`). -/
inductive Reachable (ag : Agents) (cfg : Settings) : InterviewState → Prop where
  | init (candidate_name job_role experience_level : String)
      (resume_text : Option String) :
      Reachable ag cfg (create_initial_state candidate_name job_role experience_level resume_text)
  | step {s s' : InterviewState} :
      Reachable ag cfg s → run_step ag cfg s = some s' → Reachable ag cfg s'
  | answer {s s' : InterviewState} {text : String} :
      Reachable ag cfg s → s.current_question ≠ none →
      process_answer s text = some s' → Reachable ag cfg s'

/-- The monotone round index of the spec: technical 0, hr 1, manager 2,
evaluation 3 (and 4 for the never-assigned `"complete"`). -/
def roundIndex : CurrentAgent → Nat
  | CurrentAgent.technical => 0
  | CurrentAgent.hr => 1
  | CurrentAgent.manager => 2
  | CurrentAgent.evaluation => 3
  | CurrentAgent.complete => 4

/-- Relation between `current_agent` and the counters that holds on every
reachable state: a round tag is only reached once every earlier round's
counter is at its maximum, counters of later rounds are still 0, and
`"complete"` is never assigned. -/
def GoodState (cfg : Settings) (s : InterviewState) : Prop :=
  (s.current_agent = CurrentAgent.technical →
    s.hr_questions_asked = 0 ∧ s.manager_questions_asked = 0) ∧
  (s.current_agent = CurrentAgent.hr →
    cfg.MAX_TECHNICAL_QUESTIONS ≤ s.technical_questions_asked ∧
      s.manager_questions_asked = 0) ∧
  (s.current_agent = CurrentAgent.manager →
    cfg.MAX_TECHNICAL_QUESTIONS ≤ s.technical_questions_asked ∧
      cfg.MAX_HR_QUESTIONS ≤ s.hr_questions_asked) ∧
  (s.current_agent = CurrentAgent.evaluation →
    cfg.MAX_TECHNICAL_QUESTIONS ≤ s.technical_questions_asked ∧
      cfg.MAX_HR_QUESTIONS ≤ s.hr_questions_asked ∧
      cfg.MAX_MANAGER_QUESTIONS ≤ s.manager_questions_asked) ∧
  s.current_agent ≠ CurrentAgent.complete

/-- The counter of a round. -/
def counterOf (s : InterviewState) : AgentType → Nat
  | AgentType.technical => s.technical_questions_asked
  | AgentType.hr => s.hr_questions_asked
  | AgentType.manager => s.manager_questions_asked

/-- Where the conditional edges send a run that has left the technical round:
the first round below its maximum, in the fixed order hr, manager,
evaluation. -/
def routedAgent (cfg : Settings) (s : InterviewState) : CurrentAgent :=
  if cfg.MAX_HR_QUESTIONS ≤ s.hr_questions_asked then
    if cfg.MAX_MANAGER_QUESTIONS ≤ s.manager_questions_asked then CurrentAgent.evaluation
    else CurrentAgent.manager
  else CurrentAgent.hr

/-! ## Concrete instances used by witnesses and counterexamples -/

/-- A constant oracle: every persona always replies with the same non-empty
question text, and the evaluation model replies "SCORE: 85". -/
def constAgents : Agents :=
  { techAsk := fun _ => "T?", hrAsk := fun _ => "H?", managerAsk := fun _ => "M?",
    evalResponse := fun _ => "SCORE: 85" }

/-- A concrete freshly created interview state. -/
def sampleInitial : InterviewState := create_initial_state "Ada" "Engineer" "Senior" none

/-- The `{technical: 1, hr: 1, manager: 1}` round maxima used by the
end-to-end scenario. -/
def cfg111 : Settings :=
  { MAX_TECHNICAL_QUESTIONS := 1, MAX_HR_QUESTIONS := 1, MAX_MANAGER_QUESTIONS := 1 }

/-- The end-to-end sequence of the spec (maxima 1/1/1):
step, answer "x", step, answer "y", step, answer "z", step. -/
def endToEndChain : Option InterviewState :=
  (((((run_step constAgents cfg111 sampleInitial).bind
    (fun s => process_answer s "x")).bind
    (fun s => run_step constAgents cfg111 s)).bind
    (fun s => process_answer s "y")).bind
    (fun s => run_step constAgents cfg111 s)).bind
    (fun s => process_answer s "z")
    |>.bind (fun s => run_step constAgents cfg111 s)

/-- A state in which a (technical) question is already pending. -/
def pendingState : InterviewState := { sampleInitial with current_question := some "Q0" }

/-- A state in which all three counters sit at the `cfg111` maxima and no
question is pending. -/
def maxedState : InterviewState :=
  { sampleInitial with
    technical_questions_asked := 1
    hr_questions_asked := 1
    manager_questions_asked := 1 }

/-- Maxima with a single technical question, hr and manager at defaults. -/
def cfgTech1 : Settings :=
  { MAX_TECHNICAL_QUESTIONS := 1, MAX_HR_QUESTIONS := 3, MAX_MANAGER_QUESTIONS := 2 }

/-- A state whose technical round is exhausted (under `cfgTech1`) with no
pending question. -/
def techDoneState : InterviewState :=
  { sampleInitial with technical_questions_asked := 1 }

/-- A state whose `current_question` is non-null but the empty string. -/
def emptyQState : InterviewState := { sampleInitial with current_question := some "" }

/-- A state whose technical and hr rounds are both exhausted (under
`cfg111`) with no pending question, the manager round still open. -/
def hrDoneState : InterviewState :=
  { sampleInitial with technical_questions_asked := 1, hr_questions_asked := 1 }

/-- A resume text of 2500 characters. -/
def longResume : String := String.mk (List.replicate 2500 'a')

/-- A short, non-empty resume text. -/
def shortResume : String := "Built data pipelines for five years."


/-! ## Helper lemmas: the graph nodes -/

theorem technical_node_frame (ag : Agents) (s : InterviewState) :
    (technical_node ag s).technical_questions_asked = s.technical_questions_asked ∧
    (technical_node ag s).hr_questions_asked = s.hr_questions_asked ∧
    (technical_node ag s).manager_questions_asked = s.manager_questions_asked ∧
    (technical_node ag s).qa_pairs = s.qa_pairs ∧
    (technical_node ag s).current_agent = s.current_agent :=
  ⟨rfl, rfl, rfl, rfl, rfl⟩

theorem hr_node_frame (ag : Agents) (s : InterviewState) :
    (hr_node ag s).technical_questions_asked = s.technical_questions_asked ∧
    (hr_node ag s).hr_questions_asked = s.hr_questions_asked ∧
    (hr_node ag s).manager_questions_asked = s.manager_questions_asked ∧
    (hr_node ag s).qa_pairs = s.qa_pairs ∧
    (hr_node ag s).current_agent = CurrentAgent.hr :=
  ⟨rfl, rfl, rfl, rfl, rfl⟩

theorem manager_node_frame (ag : Agents) (s : InterviewState) :
    (manager_node ag s).technical_questions_asked = s.technical_questions_asked ∧
    (manager_node ag s).hr_questions_asked = s.hr_questions_asked ∧
    (manager_node ag s).manager_questions_asked = s.manager_questions_asked ∧
    (manager_node ag s).qa_pairs = s.qa_pairs ∧
    (manager_node ag s).current_agent = CurrentAgent.manager :=
  ⟨rfl, rfl, rfl, rfl, rfl⟩

theorem evaluation_node_frame (ag : Agents) (s : InterviewState) :
    (evaluation_node ag s).technical_questions_asked = s.technical_questions_asked ∧
    (evaluation_node ag s).hr_questions_asked = s.hr_questions_asked ∧
    (evaluation_node ag s).manager_questions_asked = s.manager_questions_asked ∧
    (evaluation_node ag s).qa_pairs = s.qa_pairs ∧
    (evaluation_node ag s).current_agent = CurrentAgent.evaluation :=
  ⟨rfl, rfl, rfl, rfl, rfl⟩

/-! ## Helper lemmas: one super-step of the graph -/

theorem runGraph_zero (ag : Agents) (cfg : Settings) (n : GraphNode) (s : InterviewState) :
    runGraph ag cfg 0 n s = none := rfl

theorem runGraph_succ_technical (ag : Agents) (cfg : Settings) (fuel : Nat)
    (s : InterviewState) :
    runGraph ag cfg (fuel + 1) GraphNode.technical s =
      match route_from_technical cfg (technical_node ag s) with
      | TechRoute.toHr => runGraph ag cfg fuel GraphNode.hr (technical_node ag s)
      | TechRoute.toContinue => runGraph ag cfg fuel GraphNode.technical (technical_node ag s)
      | TechRoute.toEnd => some (technical_node ag s) := rfl

theorem runGraph_succ_hr (ag : Agents) (cfg : Settings) (fuel : Nat)
    (s : InterviewState) :
    runGraph ag cfg (fuel + 1) GraphNode.hr s =
      match route_from_hr cfg (hr_node ag s) with
      | HrRoute.toManager => runGraph ag cfg fuel GraphNode.manager (hr_node ag s)
      | HrRoute.toContinue => runGraph ag cfg fuel GraphNode.hr (hr_node ag s)
      | HrRoute.toEnd => some (hr_node ag s) := rfl

theorem runGraph_succ_manager (ag : Agents) (cfg : Settings) (fuel : Nat)
    (s : InterviewState) :
    runGraph ag cfg (fuel + 1) GraphNode.manager s =
      match route_from_manager cfg (manager_node ag s) with
      | MgrRoute.toEvaluation => runGraph ag cfg fuel GraphNode.evaluation (manager_node ag s)
      | MgrRoute.toContinue => runGraph ag cfg fuel GraphNode.manager (manager_node ag s)
      | MgrRoute.toEnd => some (manager_node ag s) := rfl

theorem runGraph_succ_evaluation (ag : Agents) (cfg : Settings) (fuel : Nat)
    (s : InterviewState) :
    runGraph ag cfg (fuel + 1) GraphNode.evaluation s = some (evaluation_node ag s) := rfl

/-! ## Helper lemmas: routing inversions -/

theorem route_from_technical_eq_toHr (cfg : Settings) (s : InterviewState)
    (h : cfg.MAX_TECHNICAL_QUESTIONS ≤ s.technical_questions_asked) :
    route_from_technical cfg s = TechRoute.toHr := by
  simp [route_from_technical, h]

theorem route_from_technical_toHr_inv (cfg : Settings) (s : InterviewState)
    (h : route_from_technical cfg s = TechRoute.toHr) :
    cfg.MAX_TECHNICAL_QUESTIONS ≤ s.technical_questions_asked := by
  by_cases hle : cfg.MAX_TECHNICAL_QUESTIONS ≤ s.technical_questions_asked
  · exact hle
  · simp [route_from_technical, hle] at h
    split at h <;> simp_all

theorem route_from_technical_toContinue_inv (cfg : Settings) (s : InterviewState)
    (h : route_from_technical cfg s = TechRoute.toContinue) :
    ¬ cfg.MAX_TECHNICAL_QUESTIONS ≤ s.technical_questions_asked := by
  intro hle
  simp [route_from_technical, hle] at h

theorem route_from_hr_toManager_inv (cfg : Settings) (s : InterviewState)
    (h : route_from_hr cfg s = HrRoute.toManager) :
    cfg.MAX_HR_QUESTIONS ≤ s.hr_questions_asked := by
  by_cases hle : cfg.MAX_HR_QUESTIONS ≤ s.hr_questions_asked
  · exact hle
  · simp [route_from_hr, hle] at h
    split at h <;> simp_all

theorem route_from_hr_toContinue_inv (cfg : Settings) (s : InterviewState)
    (h : route_from_hr cfg s = HrRoute.toContinue) :
    ¬ cfg.MAX_HR_QUESTIONS ≤ s.hr_questions_asked := by
  intro hle
  simp [route_from_hr, hle] at h

theorem route_from_hr_toEnd_inv (cfg : Settings) (s : InterviewState)
    (h : route_from_hr cfg s = HrRoute.toEnd) :
    ¬ cfg.MAX_HR_QUESTIONS ≤ s.hr_questions_asked := by
  intro hle
  simp [route_from_hr, hle] at h

theorem route_from_manager_toEvaluation_inv (cfg : Settings) (s : InterviewState)
    (h : route_from_manager cfg s = MgrRoute.toEvaluation) :
    cfg.MAX_MANAGER_QUESTIONS ≤ s.manager_questions_asked := by
  by_cases hle : cfg.MAX_MANAGER_QUESTIONS ≤ s.manager_questions_asked
  · exact hle
  · simp [route_from_manager, hle] at h
    split at h <;> simp_all

theorem route_from_manager_toContinue_inv (cfg : Settings) (s : InterviewState)
    (h : route_from_manager cfg s = MgrRoute.toContinue) :
    ¬ cfg.MAX_MANAGER_QUESTIONS ≤ s.manager_questions_asked := by
  intro hle
  simp [route_from_manager, hle] at h

theorem route_from_manager_toEnd_inv (cfg : Settings) (s : InterviewState)
    (h : route_from_manager cfg s = MgrRoute.toEnd) :
    ¬ cfg.MAX_MANAGER_QUESTIONS ≤ s.manager_questions_asked := by
  intro hle
  simp [route_from_manager, hle] at h

/-! ## Helper lemmas: a whole graph run -/

/-- A graph run never touches the three counters or the Q&A pairs:
only `process_answer` does. -/
theorem runGraph_frame (ag : Agents) (cfg : Settings) :
    ∀ (fuel : Nat) (n : GraphNode) (s s' : InterviewState),
      runGraph ag cfg fuel n s = some s' →
      s'.technical_questions_asked = s.technical_questions_asked ∧
      s'.hr_questions_asked = s.hr_questions_asked ∧
      s'.manager_questions_asked = s.manager_questions_asked ∧
      s'.qa_pairs = s.qa_pairs := by
  intro fuel
  induction fuel with
  | zero => intro n s s' h; simp [runGraph_zero] at h
  | succ fuel ih =>
    intro n s s' h
    cases n with
    | technical =>
      rw [runGraph_succ_technical] at h
      split at h
      · have := ih GraphNode.hr (technical_node ag s) s' h
        simp_all [technical_node]
      · have := ih GraphNode.technical (technical_node ag s) s' h
        simp_all [technical_node]
      · cases h; simp [technical_node]
    | hr =>
      rw [runGraph_succ_hr] at h
      split at h
      · have := ih GraphNode.manager (hr_node ag s) s' h
        simp_all [hr_node]
      · have := ih GraphNode.hr (hr_node ag s) s' h
        simp_all [hr_node]
      · cases h; simp [hr_node]
    | manager =>
      rw [runGraph_succ_manager] at h
      split at h
      · have := ih GraphNode.evaluation (manager_node ag s) s' h
        simp_all [manager_node]
      · have := ih GraphNode.manager (manager_node ag s) s' h
        simp_all [manager_node]
      · cases h; simp [manager_node]
    | evaluation =>
      rw [runGraph_succ_evaluation] at h
      cases h; simp [evaluation_node]

theorem route_from_technical_toEnd_inv (cfg : Settings) (s : InterviewState)
    (h : route_from_technical cfg s = TechRoute.toEnd) :
    ¬ cfg.MAX_TECHNICAL_QUESTIONS ≤ s.technical_questions_asked := by
  intro hle
  simp [route_from_technical, hle] at h

/-- A run that starts at the `evaluation` node ends in `current_agent =
"evaluation"`. -/
theorem runGraph_evaluation_agent (ag : Agents) (cfg : Settings)
    (fuel : Nat) (s s' : InterviewState)
    (h : runGraph ag cfg fuel GraphNode.evaluation s = some s') :
    s'.current_agent = CurrentAgent.evaluation := by
  cases fuel with
  | zero => simp [runGraph_zero] at h
  | succ fuel =>
    rw [runGraph_succ_evaluation] at h
    cases h
    rfl

/-- A run that starts at the `manager` node ends in the manager round when
it is still open and otherwise in evaluation. -/
theorem runGraph_manager_agent (ag : Agents) (cfg : Settings) :
    ∀ (fuel : Nat) (s s' : InterviewState),
      runGraph ag cfg fuel GraphNode.manager s = some s' →
      s'.current_agent =
        (if cfg.MAX_MANAGER_QUESTIONS ≤ s.manager_questions_asked then
          CurrentAgent.evaluation
        else CurrentAgent.manager) := by
  intro fuel
  induction fuel with
  | zero => intro s s' h; simp [runGraph_zero] at h
  | succ fuel ih =>
    intro s s' h
    rw [runGraph_succ_manager] at h
    split at h
    case _ heq =>
      have hle := route_from_manager_toEvaluation_inv cfg (manager_node ag s) heq
      rw [show (manager_node ag s).manager_questions_asked = s.manager_questions_asked from rfl]
        at hle
      rw [if_pos hle]
      exact runGraph_evaluation_agent ag cfg fuel (manager_node ag s) s' h
    case _ heq =>
      have hlt := route_from_manager_toContinue_inv cfg (manager_node ag s) heq
      rw [show (manager_node ag s).manager_questions_asked = s.manager_questions_asked from rfl]
        at hlt
      rw [if_neg hlt]
      have := ih (manager_node ag s) s' h
      rw [show (manager_node ag s).manager_questions_asked = s.manager_questions_asked from rfl]
        at this
      rwa [if_neg hlt] at this
    case _ heq =>
      have hlt := route_from_manager_toEnd_inv cfg (manager_node ag s) heq
      rw [show (manager_node ag s).manager_questions_asked = s.manager_questions_asked from rfl]
        at hlt
      rw [if_neg hlt]
      cases h
      rfl

/-- A run that starts at the `hr` node ends in the round that `routedAgent`
names. -/
theorem runGraph_hr_agent (ag : Agents) (cfg : Settings) :
    ∀ (fuel : Nat) (s s' : InterviewState),
      runGraph ag cfg fuel GraphNode.hr s = some s' →
      s'.current_agent = routedAgent cfg s := by
  intro fuel
  induction fuel with
  | zero => intro s s' h; simp [runGraph_zero] at h
  | succ fuel ih =>
    intro s s' h
    have hroutedEq : routedAgent cfg (hr_node ag s) = routedAgent cfg s := by
      simp [routedAgent, hr_node]
    rw [runGraph_succ_hr] at h
    split at h
    case _ heq =>
      have hle := route_from_hr_toManager_inv cfg (hr_node ag s) heq
      rw [show (hr_node ag s).hr_questions_asked = s.hr_questions_asked from rfl] at hle
      have hm := runGraph_manager_agent ag cfg fuel (hr_node ag s) s' h
      rw [show (hr_node ag s).manager_questions_asked = s.manager_questions_asked from rfl] at hm
      rw [hm, routedAgent, if_pos hle]
    case _ heq =>
      have := ih (hr_node ag s) s' h
      rwa [hroutedEq] at this
    case _ heq =>
      have hlt := route_from_hr_toEnd_inv cfg (hr_node ag s) heq
      rw [show (hr_node ag s).hr_questions_asked = s.hr_questions_asked from rfl] at hlt
      cases h
      rw [show (hr_node ag s).current_agent = CurrentAgent.hr from rfl, routedAgent, if_neg hlt]

/-- Where `current_agent` ends up after one `run_step`-style run from the
entry node: untouched while the technical round is open, otherwise the first
open later round. -/
theorem runGraph_technical_agent (ag : Agents) (cfg : Settings) :
    ∀ (fuel : Nat) (s s' : InterviewState),
      runGraph ag cfg fuel GraphNode.technical s = some s' →
      s'.current_agent =
        (if cfg.MAX_TECHNICAL_QUESTIONS ≤ s.technical_questions_asked then
          routedAgent cfg s
        else s.current_agent) := by
  intro fuel
  induction fuel with
  | zero => intro s s' h; simp [runGraph_zero] at h
  | succ fuel ih =>
    intro s s' h
    have hroutedEq : routedAgent cfg (technical_node ag s) = routedAgent cfg s := by
      simp [routedAgent, technical_node]
    rw [runGraph_succ_technical] at h
    split at h
    case _ heq =>
      have hle := route_from_technical_toHr_inv cfg (technical_node ag s) heq
      rw [show (technical_node ag s).technical_questions_asked = s.technical_questions_asked
        from rfl] at hle
      have hh := runGraph_hr_agent ag cfg fuel (technical_node ag s) s' h
      rw [hroutedEq] at hh
      rw [hh, if_pos hle]
    case _ heq =>
      have hlt := route_from_technical_toContinue_inv cfg (technical_node ag s) heq
      rw [show (technical_node ag s).technical_questions_asked = s.technical_questions_asked
        from rfl] at hlt
      have := ih (technical_node ag s) s' h
      rw [show (technical_node ag s).technical_questions_asked = s.technical_questions_asked
        from rfl, hroutedEq,
        show (technical_node ag s).current_agent = s.current_agent from rfl] at this
      rw [if_neg hlt]
      rwa [if_neg hlt] at this
    case _ heq =>
      have hlt := route_from_technical_toEnd_inv cfg (technical_node ag s) heq
      rw [show (technical_node ag s).technical_questions_asked = s.technical_questions_asked
        from rfl] at hlt
      cases h
      rw [show (technical_node ag s).current_agent = s.current_agent from rfl, if_neg hlt]

/-! ## Helper lemmas: process_answer -/

/-- Full characterization of a successful `process_answer` call: the
candidate message is always appended, `current_question` is always cleared
and `last_answer` set, `current_agent` is never changed; the Q&A pair and
the counter bump happen exactly when the pending question was truthy (and
the current agent is one of the three persona rounds). -/
theorem process_answer_spec (s : InterviewState) (a : String) (s' : InterviewState)
    (h : process_answer s a = some s') :
    s'.current_agent = s.current_agent ∧
    s'.current_question = none ∧
    s'.last_answer = some a ∧
    s'.conversation_history =
      s.conversation_history ++ [{ role := Role.user, content := a, agent_type := none }] ∧
    ((∃ q tag, s.current_question = some q ∧ q.data.isEmpty = false ∧
        roundTagOf s.current_agent = some tag ∧
        s'.qa_pairs = s.qa_pairs ++ [{ question := q, answer := some a, agent_type := tag }] ∧
        counterOf s' tag = counterOf s tag + 1 ∧
        ∀ t, t ≠ tag → counterOf s' t = counterOf s t) ∨
      (s.current_question = none ∨ s.current_question = some "") ∧
        s'.qa_pairs = s.qa_pairs ∧
        s'.technical_questions_asked = s.technical_questions_asked ∧
        s'.hr_questions_asked = s.hr_questions_asked ∧
        s'.manager_questions_asked = s.manager_questions_asked) := by
  unfold process_answer at h
  cases hq : s.current_question with
  | none =>
    simp only [hq] at h
    cases h
    exact ⟨rfl, rfl, rfl, rfl, Or.inr ⟨Or.inl rfl, rfl, rfl, rfl, rfl⟩⟩
  | some q =>
    simp only [hq] at h
    cases he : q.data.isEmpty with
    | true =>
      simp only [he, if_true] at h
      cases h
      have hq' : q = "" := by
        cases q with
        | mk l => cases l with
          | nil => rfl
          | cons c cs => simp [String.data] at he
      exact ⟨rfl, rfl, rfl, rfl, Or.inr ⟨Or.inr (by rw [hq']), rfl, rfl, rfl, rfl⟩⟩
    | false =>
      simp only [he, Bool.false_eq_true, if_false] at h
      cases htag : roundTagOf s.current_agent with
      | none =>
        rw [htag] at h
        exact Option.noConfusion h
      | some tag =>
        simp only [htag] at h
        cases h
        refine ⟨?_, rfl, rfl, ?_, Or.inl ⟨q, tag, rfl, he, rfl, ?_, ?_, ?_⟩⟩
        · cases tag <;> rfl
        · cases tag <;> rfl
        · cases tag <;> rfl
        · cases tag <;> rfl
        · intro t ht
          cases tag <;> cases t <;> first | rfl | exact absurd rfl ht

/-! ## Helper lemmas: the reachable-state invariant -/

/-- Every reachable state relates `current_agent` to the counters as
`GoodState` says; in particular `current_agent` is never `"complete"`. -/
theorem reachable_goodState (ag : Agents) (cfg : Settings) (s : InterviewState)
    (h : Reachable ag cfg s) : GoodState cfg s := by
  induction h with
  | init candidate_name job_role experience_level resume_text =>
    refine ⟨fun _ => ⟨rfl, rfl⟩, fun hA => ?_, fun hA => ?_, fun hA => ?_, fun hA => ?_⟩ <;>
      simp [create_initial_state] at hA
  | @step s s' _ hstep ih =>
    obtain ⟨hT, hH, hM, _⟩ := runGraph_frame ag cfg 25 GraphNode.technical s s' hstep
    have hag := runGraph_technical_agent ag cfg 25 s s' hstep
    obtain ⟨ih1, ih2, ih3, ih4, ih5⟩ := ih
    by_cases hle : cfg.MAX_TECHNICAL_QUESTIONS ≤ s.technical_questions_asked
    · rw [if_pos hle] at hag
      unfold routedAgent at hag
      by_cases hleH : cfg.MAX_HR_QUESTIONS ≤ s.hr_questions_asked
      · rw [if_pos hleH] at hag
        by_cases hleM : cfg.MAX_MANAGER_QUESTIONS ≤ s.manager_questions_asked
        · rw [if_pos hleM] at hag
          refine ⟨fun hA => ?_, fun hA => ?_, fun hA => ?_, fun _ => ?_, ?_⟩ <;>
            rw [hag] at *
          · cases hA
          · cases hA
          · cases hA
          · exact ⟨by omega, by omega, by omega⟩
          · intro hA; cases hA
        · rw [if_neg hleM] at hag
          refine ⟨fun hA => ?_, fun hA => ?_, fun _ => ?_, fun hA => ?_, ?_⟩ <;>
            rw [hag] at *
          · cases hA
          · cases hA
          · exact ⟨by omega, by omega⟩
          · cases hA
          · intro hA; cases hA
      · rw [if_neg hleH] at hag
        have hmgr0 : s.manager_questions_asked = 0 := by
          cases hA : s.current_agent with
          | technical => exact (ih1 hA).2
          | hr => exact (ih2 hA).2
          | manager => exact absurd (ih3 hA).2 hleH
          | evaluation => exact absurd (ih4 hA).2.1 hleH
          | complete => exact absurd hA ih5
        refine ⟨fun hA => ?_, fun _ => ?_, fun hA => ?_, fun hA => ?_, ?_⟩ <;>
          rw [hag] at *
        · cases hA
        · exact ⟨by omega, by omega⟩
        · cases hA
        · cases hA
        · intro hA; cases hA
    · rw [if_neg hle] at hag
      refine ⟨fun hA => ?_, fun hA => ?_, fun hA => ?_, fun hA => ?_, ?_⟩
      · rw [hag] at hA
        obtain ⟨h1, h2⟩ := ih1 hA
        omega
      · rw [hag] at hA
        obtain ⟨h1, h2⟩ := ih2 hA
        omega
      · rw [hag] at hA
        obtain ⟨h1, h2⟩ := ih3 hA
        omega
      · rw [hag] at hA
        obtain ⟨h1, h2, h3⟩ := ih4 hA
        omega
      · rw [hag]
        exact ih5
  | @answer s s' text _ _ hpa ih =>
    obtain ⟨hagent, _, _, _, hcase⟩ := process_answer_spec s text s' hpa
    obtain ⟨ih1, ih2, ih3, ih4, ih5⟩ := ih
    rcases hcase with ⟨q, tag, _, _, htag, _, hbump, hother⟩ |
      ⟨_, _, hT, hH, hM⟩
    · cases hA : s.current_agent with
      | technical =>
        rw [hA] at htag
        cases htag
        obtain ⟨h1, h2⟩ := ih1 hA
        have e1 := hother AgentType.hr (by intro hc; cases hc)
        have e2 := hother AgentType.manager (by intro hc; cases hc)
        simp only [counterOf] at e1 e2 hbump
        refine ⟨fun _ => ⟨by omega, by omega⟩, fun hA' => ?_, fun hA' => ?_,
          fun hA' => ?_, ?_⟩
        · rw [hagent, hA] at hA'; cases hA'
        · rw [hagent, hA] at hA'; cases hA'
        · rw [hagent, hA] at hA'; cases hA'
        · rw [hagent, hA]; intro hc; cases hc
      | hr =>
        rw [hA] at htag
        cases htag
        obtain ⟨h1, h2⟩ := ih2 hA
        have e1 := hother AgentType.technical (by intro hc; cases hc)
        have e2 := hother AgentType.manager (by intro hc; cases hc)
        simp only [counterOf] at e1 e2 hbump
        refine ⟨fun hA' => ?_, fun _ => ⟨by omega, by omega⟩, fun hA' => ?_,
          fun hA' => ?_, ?_⟩
        · rw [hagent, hA] at hA'; cases hA'
        · rw [hagent, hA] at hA'; cases hA'
        · rw [hagent, hA] at hA'; cases hA'
        · rw [hagent, hA]; intro hc; cases hc
      | manager =>
        rw [hA] at htag
        cases htag
        obtain ⟨h1, h2⟩ := ih3 hA
        have e1 := hother AgentType.technical (by intro hc; cases hc)
        have e2 := hother AgentType.hr (by intro hc; cases hc)
        simp only [counterOf] at e1 e2 hbump
        refine ⟨fun hA' => ?_, fun hA' => ?_, fun _ => ⟨by omega, by omega⟩,
          fun hA' => ?_, ?_⟩
        · rw [hagent, hA] at hA'; cases hA'
        · rw [hagent, hA] at hA'; cases hA'
        · rw [hagent, hA] at hA'; cases hA'
        · rw [hagent, hA]; intro hc; cases hc
      | evaluation =>
        rw [hA] at htag
        cases htag
      | complete =>
        exact absurd hA ih5
    · refine ⟨fun hA' => ?_, fun hA' => ?_, fun hA' => ?_, fun hA' => ?_, ?_⟩
      · rw [hagent] at hA'
        obtain ⟨h1, h2⟩ := ih1 hA'
        omega
      · rw [hagent] at hA'
        obtain ⟨h1, h2⟩ := ih2 hA'
        omega
      · rw [hagent] at hA'
        obtain ⟨h1, h2⟩ := ih3 hA'
        omega
      · rw [hagent] at hA'
        obtain ⟨h1, h2, h3⟩ := ih4 hA'
        omega
      · rw [hagent]
        exact ih5

/-! ## Helper lemmas: straight-line runs of the graph -/

theorem ne_empty_isEmpty_false (q : String) (h : q ≠ "") : q.data.isEmpty = false := by
  cases q with
  | mk l =>
    cases l with
    | nil => exact absurd rfl h
    | cons c cs => rfl

theorem route_from_technical_eq_toEnd (cfg : Settings) (s : InterviewState)
    (h1 : ¬ cfg.MAX_TECHNICAL_QUESTIONS ≤ s.technical_questions_asked)
    (h2 : optTruthy s.current_question = true) :
    route_from_technical cfg s = TechRoute.toEnd := by
  simp [route_from_technical, h1, h2]

theorem route_from_hr_eq_toManager (cfg : Settings) (s : InterviewState)
    (h : cfg.MAX_HR_QUESTIONS ≤ s.hr_questions_asked) :
    route_from_hr cfg s = HrRoute.toManager := by
  simp [route_from_hr, h]

theorem route_from_hr_eq_toEnd (cfg : Settings) (s : InterviewState)
    (h1 : ¬ cfg.MAX_HR_QUESTIONS ≤ s.hr_questions_asked)
    (h2 : optTruthy s.current_question = true) :
    route_from_hr cfg s = HrRoute.toEnd := by
  simp [route_from_hr, h1, h2]

theorem route_from_manager_eq_toEvaluation (cfg : Settings) (s : InterviewState)
    (h : cfg.MAX_MANAGER_QUESTIONS ≤ s.manager_questions_asked) :
    route_from_manager cfg s = MgrRoute.toEvaluation := by
  simp [route_from_manager, h]

theorem route_from_manager_eq_toEnd (cfg : Settings) (s : InterviewState)
    (h1 : ¬ cfg.MAX_MANAGER_QUESTIONS ≤ s.manager_questions_asked)
    (h2 : optTruthy s.current_question = true) :
    route_from_manager cfg s = MgrRoute.toEnd := by
  simp [route_from_manager, h1, h2]

/-- While the technical round is open and the model reply is non-empty, a
graph run is exactly one execution of the technical node — regardless of
whether a question was already pending. -/
theorem runGraph_technical_open (ag : Agents) (cfg : Settings) (fuel : Nat)
    (s : InterviewState)
    (h1 : ¬ cfg.MAX_TECHNICAL_QUESTIONS ≤ s.technical_questions_asked)
    (h2 : ag.techAsk s ≠ "") :
    runGraph ag cfg (fuel + 1) GraphNode.technical s = some (technical_node ag s) := by
  rw [runGraph_succ_technical]
  rw [route_from_technical_eq_toEnd cfg (technical_node ag s) h1
    (by
      rw [show (technical_node ag s).current_question = some (ag.techAsk s) from rfl]
      simp [optTruthy, ne_empty_isEmpty_false (ag.techAsk s) h2])]

/-- When the technical round is exhausted and the hr round open (with a
non-empty hr reply), a graph run executes the technical node and then the
hr node. -/
theorem runGraph_technical_exhausted (ag : Agents) (cfg : Settings) (fuel : Nat)
    (s : InterviewState)
    (h1 : cfg.MAX_TECHNICAL_QUESTIONS ≤ s.technical_questions_asked)
    (h2 : ¬ cfg.MAX_HR_QUESTIONS ≤ s.hr_questions_asked)
    (h3 : ag.hrAsk (technical_node ag s) ≠ "") :
    runGraph ag cfg (fuel + 2) GraphNode.technical s =
      some (hr_node ag (technical_node ag s)) := by
  rw [show fuel + 2 = (fuel + 1) + 1 from rfl, runGraph_succ_technical]
  rw [route_from_technical_eq_toHr cfg (technical_node ag s) h1]
  rw [runGraph_succ_hr]
  rw [route_from_hr_eq_toEnd cfg (hr_node ag (technical_node ag s)) h2
    (by
      rw [show (hr_node ag (technical_node ag s)).current_question
        = some (ag.hrAsk (technical_node ag s)) from rfl]
      simp [optTruthy, ne_empty_isEmpty_false _ h3])]

/-- When the technical and hr rounds are exhausted and the manager round
open (with a non-empty manager reply), a graph run executes the technical,
hr and manager nodes in order. -/
theorem runGraph_technical_hr_exhausted (ag : Agents) (cfg : Settings) (fuel : Nat)
    (s : InterviewState)
    (h1 : cfg.MAX_TECHNICAL_QUESTIONS ≤ s.technical_questions_asked)
    (h2 : cfg.MAX_HR_QUESTIONS ≤ s.hr_questions_asked)
    (h3 : ¬ cfg.MAX_MANAGER_QUESTIONS ≤ s.manager_questions_asked)
    (h4 : ag.managerAsk (hr_node ag (technical_node ag s)) ≠ "") :
    runGraph ag cfg (fuel + 3) GraphNode.technical s =
      some (manager_node ag (hr_node ag (technical_node ag s))) := by
  rw [show fuel + 3 = ((fuel + 1) + 1) + 1 from rfl, runGraph_succ_technical]
  rw [route_from_technical_eq_toHr cfg (technical_node ag s) h1]
  rw [runGraph_succ_hr]
  rw [route_from_hr_eq_toManager cfg (hr_node ag (technical_node ag s)) h2]
  rw [runGraph_succ_manager]
  rw [route_from_manager_eq_toEnd cfg (manager_node ag (hr_node ag (technical_node ag s))) h3
    (by
      rw [show (manager_node ag (hr_node ag (technical_node ag s))).current_question
        = some (ag.managerAsk (hr_node ag (technical_node ag s))) from rfl]
      simp [optTruthy, ne_empty_isEmpty_false _ h4])]

/-- When all three rounds are exhausted, a graph run executes all four nodes
in order and ends with the evaluation node. -/
theorem runGraph_all_exhausted (ag : Agents) (cfg : Settings) (fuel : Nat)
    (s : InterviewState)
    (h1 : cfg.MAX_TECHNICAL_QUESTIONS ≤ s.technical_questions_asked)
    (h2 : cfg.MAX_HR_QUESTIONS ≤ s.hr_questions_asked)
    (h3 : cfg.MAX_MANAGER_QUESTIONS ≤ s.manager_questions_asked) :
    runGraph ag cfg (fuel + 4) GraphNode.technical s =
      some (evaluation_node ag (manager_node ag (hr_node ag (technical_node ag s)))) := by
  rw [show fuel + 4 = ((fuel + 1) + 1) + 1 + 1 from rfl, runGraph_succ_technical]
  rw [route_from_technical_eq_toHr cfg (technical_node ag s) h1]
  rw [runGraph_succ_hr]
  rw [route_from_hr_eq_toManager cfg (hr_node ag (technical_node ag s)) h2]
  rw [runGraph_succ_manager]
  rw [route_from_manager_eq_toEvaluation cfg
    (manager_node ag (hr_node ag (technical_node ag s))) h3]
  rw [runGraph_succ_evaluation]

/-! ## Helper lemmas: the evaluation parser -/

theorem parseEvalLine_score_bounds (acc : Evaluation × Option EvalSection)
    (line : String) (h : 0 ≤ acc.1.score ∧ acc.1.score ≤ 100) :
    0 ≤ (parseEvalLine acc line).1.score ∧ (parseEvalLine acc line).1.score ≤ 100 := by
  simp only [parseEvalLine]
  repeat' split
  all_goals
    first
      | exact h
      | exact ⟨le_min (by norm_num) (le_max_left 0 _), min_le_left _ _⟩

theorem foldl_parseEvalLine_score_bounds (lines : List String) :
    ∀ acc : Evaluation × Option EvalSection,
      0 ≤ acc.1.score ∧ acc.1.score ≤ 100 →
      0 ≤ (lines.foldl parseEvalLine acc).1.score ∧
        (lines.foldl parseEvalLine acc).1.score ≤ 100 := by
  induction lines with
  | nil => intro acc h; exact h
  | cons l rest ih =>
    intro acc h
    exact ih (parseEvalLine acc l) (parseEvalLine_score_bounds acc l h)

theorem parse_evaluation_strengths (text : String) :
    (parse_evaluation text).strengths = (parsedAccum text).strengths := by
  simp only [parse_evaluation, parsedAccum]
  split <;> rfl

theorem parse_evaluation_weaknesses (text : String) :
    (parse_evaluation text).weaknesses = (parsedAccum text).weaknesses := by
  simp only [parse_evaluation, parsedAccum]
  split <;> rfl

theorem parse_evaluation_score_eq_accum (text : String) :
    (parse_evaluation text).score = (parsedAccum text).score := by
  simp only [parse_evaluation, parsedAccum]
  split <;> rfl

theorem parseEvalLine_score_frame (acc : Evaluation × Option EvalSection)
    (line : String)
    (h1 : containsSub (pyUpper (pyStrip line)) "SCORE:" = false)
    (h2 : containsSub (pyUpper (pyStrip line)) "OVERALL SCORE:" = false) :
    (parseEvalLine acc line).1.score = acc.1.score := by
  simp only [parseEvalLine, h1, h2, Bool.or_self, Bool.false_eq_true, if_false]
  repeat' split
  all_goals rfl

theorem foldl_parseEvalLine_score_frame (lines : List String) :
    ∀ acc : Evaluation × Option EvalSection,
      (∀ l ∈ lines, containsSub (pyUpper (pyStrip l)) "SCORE:" = false ∧
        containsSub (pyUpper (pyStrip l)) "OVERALL SCORE:" = false) →
      (lines.foldl parseEvalLine acc).1.score = acc.1.score := by
  induction lines with
  | nil => intro acc _; rfl
  | cons l rest ih =>
    intro acc h
    have hl := h l (List.mem_cons_self l rest)
    rw [List.foldl_cons,
      ih (parseEvalLine acc l) (fun x hx => h x (List.mem_cons_of_mem l hx)),
      parseEvalLine_score_frame acc l hl.1 hl.2]

/-! ## Claims -/

/-- C1, counterexample: on a state whose `current_question` is already set
("Q0", technical round open, default maxima), `run_step` is NOT a no-op —
the graph re-enters the technical entry node, so the returned state has a
fresh question ("T?") and one more transcript entry. -/
theorem claim_C1_counterexample :
    pendingState.current_question = some "Q0" ∧
    Option.map InterviewState.current_question
      (run_step constAgents defaultSettings pendingState) = some (some "T?") ∧
    Option.map (fun t => t.conversation_history.length)
      (run_step constAgents defaultSettings pendingState) =
      some (pendingState.conversation_history.length + 1) ∧
    run_step constAgents defaultSettings pendingState ≠ some pendingState := by
  decide

/-- C1, amended: `run_step` never touches the counters or `qa_pairs`, but it
is not a no-op on a pending question: whenever the technical round is open
and the model reply is non-empty, it re-runs the entry (technical) node —
one more model call, `current_question` overwritten with the fresh reply,
and one technical-tagged transcript entry appended — regardless of whether a
question was already pending. -/
theorem claim_C1 (ag : Agents) (cfg : Settings) (s : InterviewState)
    (h1 : ¬ cfg.MAX_TECHNICAL_QUESTIONS ≤ s.technical_questions_asked)
    (h2 : ag.techAsk s ≠ "") :
    run_step ag cfg s = some (technical_node ag s) ∧
    (technical_node ag s).current_question = some (ag.techAsk s) ∧
    (technical_node ag s).conversation_history = s.conversation_history ++
      [{ role := Role.agent, content := ag.techAsk s,
         agent_type := some AgentType.technical }] ∧
    (technical_node ag s).qa_pairs = s.qa_pairs ∧
    (technical_node ag s).technical_questions_asked = s.technical_questions_asked ∧
    (technical_node ag s).hr_questions_asked = s.hr_questions_asked ∧
    (technical_node ag s).manager_questions_asked = s.manager_questions_asked := by
  exact ⟨runGraph_technical_open ag cfg 24 s h1 h2, rfl, rfl, rfl, rfl, rfl, rfl⟩

/-- C1, witness: the amended theorem applied to the pending-question state. -/
theorem claim_C1_witness :
    (¬ defaultSettings.MAX_TECHNICAL_QUESTIONS ≤ pendingState.technical_questions_asked) ∧
    constAgents.techAsk pendingState ≠ "" ∧
    run_step constAgents defaultSettings pendingState =
      some (technical_node constAgents pendingState) :=
  ⟨by decide, by decide,
    (claim_C1 constAgents defaultSettings pendingState (by decide) (by decide)).1⟩

/-- C2: on every state reachable by step/answer calls from an initial state
(answers only submitted while a question is pending), the number of Q&A
pairs equals the sum of the three per-round counters. -/
theorem claim_C2 (ag : Agents) (cfg : Settings) (s : InterviewState)
    (h : Reachable ag cfg s) :
    s.qa_pairs.length =
      s.technical_questions_asked + s.hr_questions_asked + s.manager_questions_asked := by
  induction h with
  | init candidate_name job_role experience_level resume_text => rfl
  | @step s s' _ hstep ih =>
    obtain ⟨hT, hH, hM, hQ⟩ := runGraph_frame ag cfg 25 GraphNode.technical s s' hstep
    rw [hT, hH, hM, hQ]
    exact ih
  | @answer s s' text _ _ hpa ih =>
    obtain ⟨_, _, _, _, hcase⟩ := process_answer_spec s text s' hpa
    rcases hcase with ⟨q, tag, _, _, _, hqa, hbump, hother⟩ | ⟨_, hqa, hT, hH, hM⟩
    · rw [hqa, List.length_append]
      cases tag with
      | technical =>
        have e1 := hother AgentType.hr (by intro hc; cases hc)
        have e2 := hother AgentType.manager (by intro hc; cases hc)
        simp only [counterOf] at e1 e2 hbump
        simp only [List.length_singleton]
        omega
      | hr =>
        have e1 := hother AgentType.technical (by intro hc; cases hc)
        have e2 := hother AgentType.manager (by intro hc; cases hc)
        simp only [counterOf] at e1 e2 hbump
        simp only [List.length_singleton]
        omega
      | manager =>
        have e1 := hother AgentType.technical (by intro hc; cases hc)
        have e2 := hother AgentType.hr (by intro hc; cases hc)
        simp only [counterOf] at e1 e2 hbump
        simp only [List.length_singleton]
        omega
    · rw [hqa, hT, hH, hM]
      exact ih

/-- C2, witness: the invariant at a freshly created state. -/
theorem claim_C2_witness :
    sampleInitial.qa_pairs.length =
      sampleInitial.technical_questions_asked + sampleInitial.hr_questions_asked +
        sampleInitial.manager_questions_asked :=
  claim_C2 constAgents defaultSettings sampleInitial
    (Reachable.init "Ada" "Engineer" "Senior" none)

/-- C10: `process_answer` on a state with no pending question does not raise:
it only appends the candidate message and sets `last_answer`; `qa_pairs` and
all three counters are untouched, so the counters-sum invariant is
preserved. -/
theorem claim_C10 (s : InterviewState) (a : String)
    (h : s.current_question = none) :
    process_answer s a = some { s with
      conversation_history := s.conversation_history ++
        [{ role := Role.user, content := a, agent_type := none }]
      current_question := none
      last_answer := some a } ∧
    ∀ s', process_answer s a = some s' →
      s'.qa_pairs = s.qa_pairs ∧
      s'.technical_questions_asked = s.technical_questions_asked ∧
      s'.hr_questions_asked = s.hr_questions_asked ∧
      s'.manager_questions_asked = s.manager_questions_asked ∧
      (s.qa_pairs.length =
          s.technical_questions_asked + s.hr_questions_asked + s.manager_questions_asked →
        s'.qa_pairs.length =
          s'.technical_questions_asked + s'.hr_questions_asked + s'.manager_questions_asked) := by
  have hpa : process_answer s a = some { s with
      conversation_history := s.conversation_history ++
        [{ role := Role.user, content := a, agent_type := none }]
      current_question := none
      last_answer := some a } := by
    unfold process_answer
    simp only [h]
  refine ⟨hpa, ?_⟩
  intro s' hs'
  rw [hpa] at hs'
  cases hs'
  exact ⟨rfl, rfl, rfl, rfl, fun hinv => hinv⟩

/-- C10, witness: the no-pending-question call on a fresh state. -/
theorem claim_C10_witness :
    sampleInitial.current_question = none ∧
    process_answer sampleInitial "hi" = some { sampleInitial with
      conversation_history := sampleInitial.conversation_history ++
        [{ role := Role.user, content := "hi", agent_type := none }]
      current_question := none
      last_answer := some "hi" } :=
  ⟨rfl, (claim_C10 sampleInitial "hi" rfl).1⟩

/-- C3, counterexample: the end-to-end run with maxima 1/1/1 terminates with
`current_agent == "evaluation"`, never `"complete"` (while `is_complete` and
the stored evaluation hold as claimed). -/
theorem claim_C3_counterexample :
    Option.map InterviewState.current_agent endToEndChain = some CurrentAgent.evaluation ∧
    Option.map InterviewState.is_complete endToEndChain = some true ∧
    Option.map (fun t => t.evaluation.isSome) endToEndChain = some true ∧
    Option.map InterviewState.current_agent endToEndChain ≠ some CurrentAgent.complete := by
  decide

/-- C3, amended: when `step` runs with all three counters at their maxima,
the returned state carries the parsed evaluation, `is_complete == true` and
`current_agent == "evaluation"` (the `"complete"` tag of the state type is
never assigned). -/
theorem claim_C3 (ag : Agents) (cfg : Settings) (s : InterviewState)
    (h1 : cfg.MAX_TECHNICAL_QUESTIONS ≤ s.technical_questions_asked)
    (h2 : cfg.MAX_HR_QUESTIONS ≤ s.hr_questions_asked)
    (h3 : cfg.MAX_MANAGER_QUESTIONS ≤ s.manager_questions_asked) :
    run_step ag cfg s =
      some (evaluation_node ag (manager_node ag (hr_node ag (technical_node ag s)))) ∧
    (evaluation_node ag (manager_node ag (hr_node ag (technical_node ag s)))).is_complete
      = true ∧
    (evaluation_node ag (manager_node ag (hr_node ag (technical_node ag s)))).current_agent
      = CurrentAgent.evaluation ∧
    (evaluation_node ag (manager_node ag (hr_node ag (technical_node ag s)))).evaluation
      = some (parse_evaluation
          (ag.evalResponse (manager_node ag (hr_node ag (technical_node ag s))))) := by
  exact ⟨runGraph_all_exhausted ag cfg 21 s h1 h2 h3, rfl, rfl, rfl⟩

/-- C3, witness: the amended theorem applied at the all-maxed state under
maxima 1/1/1. -/
theorem claim_C3_witness :
    cfg111.MAX_TECHNICAL_QUESTIONS ≤ maxedState.technical_questions_asked ∧
    cfg111.MAX_HR_QUESTIONS ≤ maxedState.hr_questions_asked ∧
    cfg111.MAX_MANAGER_QUESTIONS ≤ maxedState.manager_questions_asked ∧
    run_step constAgents cfg111 maxedState =
      some (evaluation_node constAgents
        (manager_node constAgents (hr_node constAgents (technical_node constAgents maxedState)))) :=
  ⟨by decide, by decide, by decide,
    (claim_C3 constAgents cfg111 maxedState (by decide) (by decide) (by decide)).1⟩

/-- C4, counterexample: with the technical round exhausted (counter 1 at
maximum 1) and no pending question, `run_step` still invokes the technical
persona agent and appends a transcript entry tagged `technical` before the
hr node runs — the returned transcript is exactly the technical-tagged entry
followed by the hr entry. -/
theorem claim_C4_counterexample :
    cfgTech1.MAX_TECHNICAL_QUESTIONS ≤ techDoneState.technical_questions_asked ∧
    techDoneState.current_question = none ∧
    Option.map (fun t => t.conversation_history)
      (run_step constAgents cfgTech1 techDoneState) =
      some [{ role := Role.agent, content := "T?", agent_type := some AgentType.technical },
            { role := Role.agent, content := "H?", agent_type := some AgentType.hr }] ∧
    Option.map
      (fun t => (t.conversation_history.filter
        (fun m => m.agent_type == some AgentType.technical)).length)
      (run_step constAgents cfgTech1 techDoneState) ≠ some 0 := by
  decide

/-- C4, amended: for any exhausted current round with no later rounds
skipped, `step` does transition to the first non-exhausted round in the
order technical → hr → manager → evaluation — the returned state's
`current_agent` and pending question belong to that round — but every
exhausted round's persona agent is still invoked on the way: the graph
re-enters every node from the entry point, so each traversed round
(including exhausted ones) generates a question and appends a transcript
entry tagged with that round before the next node overwrites
`current_question`.  The three conjuncts cover a step taken with the
technical round exhausted (hr open), the technical and hr rounds exhausted
(manager open), and all three rounds exhausted. -/
theorem claim_C4 (ag : Agents) (cfg : Settings) (s : InterviewState) :
    (cfg.MAX_TECHNICAL_QUESTIONS ≤ s.technical_questions_asked →
      ¬ cfg.MAX_HR_QUESTIONS ≤ s.hr_questions_asked →
      ag.hrAsk (technical_node ag s) ≠ "" →
      run_step ag cfg s = some (hr_node ag (technical_node ag s)) ∧
      (hr_node ag (technical_node ag s)).current_agent = CurrentAgent.hr ∧
      (hr_node ag (technical_node ag s)).current_question
        = some (ag.hrAsk (technical_node ag s)) ∧
      (hr_node ag (technical_node ag s)).conversation_history = s.conversation_history ++
        [{ role := Role.agent, content := ag.techAsk s,
           agent_type := some AgentType.technical },
         { role := Role.agent, content := ag.hrAsk (technical_node ag s),
           agent_type := some AgentType.hr }]) ∧
    (cfg.MAX_TECHNICAL_QUESTIONS ≤ s.technical_questions_asked →
      cfg.MAX_HR_QUESTIONS ≤ s.hr_questions_asked →
      ¬ cfg.MAX_MANAGER_QUESTIONS ≤ s.manager_questions_asked →
      ag.managerAsk (hr_node ag (technical_node ag s)) ≠ "" →
      run_step ag cfg s = some (manager_node ag (hr_node ag (technical_node ag s))) ∧
      (manager_node ag (hr_node ag (technical_node ag s))).current_agent
        = CurrentAgent.manager ∧
      (manager_node ag (hr_node ag (technical_node ag s))).current_question
        = some (ag.managerAsk (hr_node ag (technical_node ag s))) ∧
      (manager_node ag (hr_node ag (technical_node ag s))).conversation_history
        = s.conversation_history ++
          [{ role := Role.agent, content := ag.techAsk s,
             agent_type := some AgentType.technical },
           { role := Role.agent, content := ag.hrAsk (technical_node ag s),
             agent_type := some AgentType.hr },
           { role := Role.agent, content := ag.managerAsk (hr_node ag (technical_node ag s)),
             agent_type := some AgentType.manager }]) ∧
    (cfg.MAX_TECHNICAL_QUESTIONS ≤ s.technical_questions_asked →
      cfg.MAX_HR_QUESTIONS ≤ s.hr_questions_asked →
      cfg.MAX_MANAGER_QUESTIONS ≤ s.manager_questions_asked →
      run_step ag cfg s =
        some (evaluation_node ag (manager_node ag (hr_node ag (technical_node ag s)))) ∧
      (evaluation_node ag (manager_node ag (hr_node ag (technical_node ag s)))).current_agent
        = CurrentAgent.evaluation ∧
      (evaluation_node ag
          (manager_node ag (hr_node ag (technical_node ag s)))).conversation_history
        = s.conversation_history ++
          [{ role := Role.agent, content := ag.techAsk s,
             agent_type := some AgentType.technical },
           { role := Role.agent, content := ag.hrAsk (technical_node ag s),
             agent_type := some AgentType.hr },
           { role := Role.agent, content := ag.managerAsk (hr_node ag (technical_node ag s)),
             agent_type := some AgentType.manager }]) := by
  refine ⟨fun h1 h2 h3 => ⟨runGraph_technical_exhausted ag cfg 23 s h1 h2 h3, rfl, rfl, ?_⟩,
    fun h1 h2 h3 h4 =>
      ⟨runGraph_technical_hr_exhausted ag cfg 22 s h1 h2 h3 h4, rfl, rfl, ?_⟩,
    fun h1 h2 h3 => ⟨runGraph_all_exhausted ag cfg 21 s h1 h2 h3, rfl, ?_⟩⟩
  · show (s.conversation_history ++ [_]) ++ [_] = s.conversation_history ++ [_, _]
    rw [List.append_assoc]
    rfl
  · show ((s.conversation_history ++ [_]) ++ [_]) ++ [_]
      = s.conversation_history ++ [_, _, _]
    rw [List.append_assoc, List.append_assoc]
    rfl
  · show ((s.conversation_history ++ [_]) ++ [_]) ++ [_]
      = s.conversation_history ++ [_, _, _]
    rw [List.append_assoc, List.append_assoc]
    rfl

/-- C4, witness: the amended theorem applied, under maxima 1/1/1, at a
state with the technical round exhausted, one with technical and hr
exhausted, and one with all three rounds exhausted. -/
theorem claim_C4_witness :
    (cfg111.MAX_TECHNICAL_QUESTIONS ≤ techDoneState.technical_questions_asked ∧
      (¬ cfg111.MAX_HR_QUESTIONS ≤ techDoneState.hr_questions_asked) ∧
      constAgents.hrAsk (technical_node constAgents techDoneState) ≠ "" ∧
      run_step constAgents cfg111 techDoneState =
        some (hr_node constAgents (technical_node constAgents techDoneState))) ∧
    (cfg111.MAX_HR_QUESTIONS ≤ hrDoneState.hr_questions_asked ∧
      (¬ cfg111.MAX_MANAGER_QUESTIONS ≤ hrDoneState.manager_questions_asked) ∧
      run_step constAgents cfg111 hrDoneState =
        some (manager_node constAgents
          (hr_node constAgents (technical_node constAgents hrDoneState)))) ∧
    (cfg111.MAX_MANAGER_QUESTIONS ≤ maxedState.manager_questions_asked ∧
      run_step constAgents cfg111 maxedState =
        some (evaluation_node constAgents (manager_node constAgents
          (hr_node constAgents (technical_node constAgents maxedState))))) :=
  ⟨⟨by decide, by decide, by decide,
    ((claim_C4 constAgents cfg111 techDoneState).1 (by decide) (by decide) (by decide)).1⟩,
   ⟨by decide, by decide,
    ((claim_C4 constAgents cfg111 hrDoneState).2.1 (by decide) (by decide) (by decide)
      (by decide)).1⟩,
   ⟨by decide,
    ((claim_C4 constAgents cfg111 maxedState).2.2 (by decide) (by decide) (by decide)).1⟩⟩

/-- C5: under positive round maxima, from any reachable state the round
order is total and irreversible — one `step` never decreases the round
index, never skips a round, and never returns to `technical` once past it;
`answer` never changes the round at all. -/
theorem claim_C5 (ag : Agents) (cfg : Settings)
    (hH : 1 ≤ cfg.MAX_HR_QUESTIONS) (hM : 1 ≤ cfg.MAX_MANAGER_QUESTIONS)
    (s s' : InterviewState) (hreach : Reachable ag cfg s)
    (hstep : run_step ag cfg s = some s') :
    roundIndex s.current_agent ≤ roundIndex s'.current_agent ∧
    roundIndex s'.current_agent ≤ roundIndex s.current_agent + 1 ∧
    (s.current_agent ≠ CurrentAgent.technical →
      s'.current_agent ≠ CurrentAgent.technical) ∧
    ∀ (a : String) (s'' : InterviewState), process_answer s a = some s'' →
      s''.current_agent = s.current_agent := by
  obtain ⟨g1, g2, g3, g4, g5⟩ := reachable_goodState ag cfg s hreach
  have hag := runGraph_technical_agent ag cfg 25 s s' hstep
  have hanswer : ∀ (a : String) (s'' : InterviewState), process_answer s a = some s'' →
      s''.current_agent = s.current_agent :=
    fun a s'' h => (process_answer_spec s a s'' h).1
  by_cases hle : cfg.MAX_TECHNICAL_QUESTIONS ≤ s.technical_questions_asked
  · rw [if_pos hle] at hag
    unfold routedAgent at hag
    by_cases hleH : cfg.MAX_HR_QUESTIONS ≤ s.hr_questions_asked
    · rw [if_pos hleH] at hag
      by_cases hleM : cfg.MAX_MANAGER_QUESTIONS ≤ s.manager_questions_asked
      · rw [if_pos hleM] at hag
        cases hA : s.current_agent with
        | technical =>
          have e1 := (g1 hA).1
          exact absurd hleH (by omega)
        | hr =>
          have e2 := (g2 hA).2
          exact absurd hleM (by omega)
        | manager =>
          exact ⟨by rw [hag]; try decide, by rw [hag]; try decide,
            fun _ => by rw [hag]; try decide,
            fun a s'' h => (hanswer a s'' h).trans hA⟩
        | evaluation =>
          exact ⟨by rw [hag]; try decide, by rw [hag]; try decide,
            fun _ => by rw [hag]; try decide,
            fun a s'' h => (hanswer a s'' h).trans hA⟩
        | complete => exact absurd hA g5
      · rw [if_neg hleM] at hag
        cases hA : s.current_agent with
        | technical =>
          have e1 := (g1 hA).1
          exact absurd hleH (by omega)
        | hr =>
          exact ⟨by rw [hag]; try decide, by rw [hag]; try decide,
            fun _ => by rw [hag]; try decide,
            fun a s'' h => (hanswer a s'' h).trans hA⟩
        | manager =>
          exact ⟨by rw [hag]; try decide, by rw [hag]; try decide,
            fun _ => by rw [hag]; try decide,
            fun a s'' h => (hanswer a s'' h).trans hA⟩
        | evaluation => exact absurd (g4 hA).2.2 hleM
        | complete => exact absurd hA g5
    · rw [if_neg hleH] at hag
      cases hA : s.current_agent with
      | technical =>
        exact ⟨by rw [hag]; try decide, by rw [hag]; try decide,
          fun hne => absurd rfl hne,
          fun a s'' h => (hanswer a s'' h).trans hA⟩
      | hr =>
        exact ⟨by rw [hag]; try decide, by rw [hag]; try decide,
          fun _ => by rw [hag]; try decide,
          fun a s'' h => (hanswer a s'' h).trans hA⟩
      | manager => exact absurd (g3 hA).2 hleH
      | evaluation => exact absurd (g4 hA).2.1 hleH
      | complete => exact absurd hA g5
  · rw [if_neg hle] at hag
    have he : roundIndex s'.current_agent = roundIndex s.current_agent :=
      congrArg roundIndex hag
    exact ⟨he.ge, by omega, fun hne hc => hne (hag.symm.trans hc), hanswer⟩

/-- C5, witness: one step from a fresh state under maxima 1/1/1 keeps the
round index at `technical`. -/
theorem claim_C5_witness :
    1 ≤ cfg111.MAX_HR_QUESTIONS ∧ 1 ≤ cfg111.MAX_MANAGER_QUESTIONS ∧
    run_step constAgents cfg111 sampleInitial =
      some (technical_node constAgents sampleInitial) ∧
    roundIndex sampleInitial.current_agent ≤
      roundIndex (technical_node constAgents sampleInitial).current_agent :=
  ⟨by decide, by decide, by decide,
    (claim_C5 constAgents cfg111 (by decide) (by decide) sampleInitial
      (technical_node constAgents sampleInitial)
      (Reachable.init "Ada" "Engineer" "Senior" none) (by decide)).1⟩

/-- C6, counterexample: on input "SCORE: -5" the parser extracts the digit
run "5" (the regex `\d+` never matches a minus sign), so the score is 5,
not the claimed 0. -/
theorem claim_C6_counterexample :
    (parse_evaluation "SCORE: -5").score = 5 ∧ (parse_evaluation "SCORE: -5").score ≠ 0 := by
  decide

/-- C6, amended: the parsed score always lies in [0,100], and a "SCORE:"
line's first embedded unsigned digit run is extracted and clamped:
"SCORE: 150/100" yields 100, while "SCORE: -5" yields 5 (the minus sign is
ignored, not parsed as a negative number). -/
theorem claim_C6 :
    (∀ text : String,
      0 ≤ (parse_evaluation text).score ∧ (parse_evaluation text).score ≤ 100) ∧
    (parse_evaluation "SCORE: 150/100").score = 100 ∧
    (parse_evaluation "SCORE: -5").score = 5 := by
  refine ⟨fun text => ?_, by decide, by decide⟩
  rw [parse_evaluation_score_eq_accum]
  exact foldl_parseEvalLine_score_bounds (pySplitNl (pyStrip text))
    (initEvaluation, none) ⟨by decide, by decide⟩

/-- C7, counterexample: on input "SCORE: 85" both parsed lists are empty and
the feedback is the raw text, yet the score is 85, not the claimed 0. -/
theorem claim_C7_counterexample :
    (parse_evaluation "SCORE: 85").strengths = [] ∧
    (parse_evaluation "SCORE: 85").weaknesses = [] ∧
    (parse_evaluation "SCORE: 85").overall_feedback = "SCORE: 85" ∧
    (parse_evaluation "SCORE: 85").score ≠ 0 := by
  decide

/-- C7, amended: the parser is a total function; whenever both the strengths
and the weaknesses lists end up empty, the whole raw response is stored
verbatim as the overall feedback; the score stays at its default 0 whenever
no line mentions "SCORE:" (case-insensitive); and empty sections alone do
not force a zero score — "SCORE: 85" leaves both lists empty yet yields 85. -/
theorem claim_C7 :
    (∀ text : String,
      (parse_evaluation text).strengths = [] →
      (parse_evaluation text).weaknesses = [] →
      (parse_evaluation text).overall_feedback = text) ∧
    (∀ text : String,
      (∀ l ∈ pySplitNl (pyStrip text),
        containsSub (pyUpper (pyStrip l)) "SCORE:" = false ∧
        containsSub (pyUpper (pyStrip l)) "OVERALL SCORE:" = false) →
      (parse_evaluation text).score = 0) ∧
    ((parse_evaluation "SCORE: 85").strengths = [] ∧
      (parse_evaluation "SCORE: 85").weaknesses = [] ∧
      (parse_evaluation "SCORE: 85").score = 85) := by
  refine ⟨?_, ?_, by decide⟩
  · intro text hs hw
    rw [parse_evaluation_strengths] at hs
    rw [parse_evaluation_weaknesses] at hw
    simp only [parsedAccum] at hs hw
    simp only [parse_evaluation]
    rw [if_pos (by rw [hs, hw]; rfl)]
  · intro text h
    rw [parse_evaluation_score_eq_accum]
    simp only [parsedAccum]
    rw [foldl_parseEvalLine_score_frame (pySplitNl (pyStrip text)) (initEvaluation, none) h]
    rfl

/-- C7, witness: the amended theorem applied to two malformed responses. -/
theorem claim_C7_witness :
    (parse_evaluation "just some prose").overall_feedback = "just some prose" ∧
    (parse_evaluation "hello\nworld").score = 0 :=
  ⟨claim_C7.1 "just some prose" (by decide) (by decide),
    claim_C7.2.1 "hello\nworld" (by decide)⟩

/-- C8, counterexample: a non-null but empty pending question (`some ""`,
falsy in Python) makes `process_answer` skip both the Q&A-pair append and
the counter increment, against the claim's "non-null" precondition. -/
theorem claim_C8_counterexample :
    emptyQState.current_question ≠ none ∧
    emptyQState.current_agent = CurrentAgent.technical ∧
    Option.map (fun t => t.qa_pairs) (process_answer emptyQState "an answer") = some [] ∧
    Option.map (fun t => t.technical_questions_asked)
      (process_answer emptyQState "an answer") = some 0 := by
  decide

/-- C8, amended: with a non-null AND non-empty pending question and a
persona-round `current_agent`, `process_answer` appends one candidate
transcript entry, appends exactly one Q&A pair tagged with the current
round, increments exactly that round's counter, clears `current_question`
and records `last_answer`. -/
theorem claim_C8 (s : InterviewState) (q : String) (tag : AgentType) (a : String)
    (hq : s.current_question = some q) (hne : q ≠ "")
    (htag : roundTagOf s.current_agent = some tag) (ha : a ≠ "") :
    ∃ s', process_answer s a = some s' ∧
      s'.conversation_history = s.conversation_history ++
        [{ role := Role.user, content := a, agent_type := none }] ∧
      s'.qa_pairs = s.qa_pairs ++
        [{ question := q, answer := some a, agent_type := tag }] ∧
      counterOf s' tag = counterOf s tag + 1 ∧
      (∀ t, t ≠ tag → counterOf s' t = counterOf s t) ∧
      s'.current_question = none ∧
      s'.last_answer = some a := by
  obtain ⟨s', hs'⟩ : ∃ s', process_answer s a = some s' := by
    unfold process_answer
    simp only [hq, ne_empty_isEmpty_false q hne, Bool.false_eq_true, if_false, htag]
    exact ⟨_, rfl⟩
  obtain ⟨_, hcq, hla, hhist, hcase⟩ := process_answer_spec s a s' hs'
  rcases hcase with ⟨q', tag', hq', _, htag', hqa, hbump, hother⟩ |
    ⟨hdeg, _, _, _, _⟩
  · have hqq : q' = q := by
      rw [hq] at hq'
      exact (Option.some.inj hq').symm
    have htt : tag' = tag := by
      rw [htag] at htag'
      exact (Option.some.inj htag').symm
    subst hqq
    subst htt
    exact ⟨s', hs', hhist, hqa, hbump, hother, hcq, hla⟩
  · rcases hdeg with hnone | hempty
    · rw [hq] at hnone
      exact Option.noConfusion hnone
    · rw [hq] at hempty
      exact absurd (Option.some.inj hempty) hne

/-- C8, witness: the amended theorem applied at the pending-question state
in the technical round. -/
theorem claim_C8_witness :
    pendingState.current_question = some "Q0" ∧
    roundTagOf pendingState.current_agent = some AgentType.technical ∧
    (∃ s', process_answer pendingState "my answer" = some s' ∧
      s'.conversation_history = pendingState.conversation_history ++
        [{ role := Role.user, content := "my answer", agent_type := none }] ∧
      s'.qa_pairs = pendingState.qa_pairs ++
        [{ question := "Q0", answer := some "my answer",
           agent_type := AgentType.technical }] ∧
      counterOf s' AgentType.technical = counterOf pendingState AgentType.technical + 1 ∧
      (∀ t, t ≠ AgentType.technical → counterOf s' t = counterOf pendingState t) ∧
      s'.current_question = none ∧
      s'.last_answer = some "my answer") :=
  ⟨rfl, rfl,
    claim_C8 pendingState "Q0" AgentType.technical "my answer" rfl (by decide) rfl
      (by decide)⟩

/-- C9: the persona prompt embeds a resume longer than 2000 code points as
exactly its first 2000 code points followed by the continuation marker, and
a shorter (non-empty) resume in full with an empty marker slot. -/
theorem claim_C9 (agent_type : PersonaType)
    (candidate_name job_role experience_level : String) (question_number : Nat)
    (conversation_history : String) (is_first_question : Bool) (rt : String) :
    (2000 < rt.data.length →
      get_agent_prompt agent_type candidate_name job_role experience_level
          question_number conversation_history is_first_question (some rt)
        = get_agent_prompt agent_type candidate_name job_role experience_level
            question_number conversation_history is_first_question none
          ++ ("\n\nCANDIDATE\x27S RESUME:\n" ++ String.mk (rt.data.take 2000) ++ "\n"
            ++ "...(resume continues)"
            ++ "\n\nUse this resume information to ask more personalized and relevant questions based on the candidate\x27s actual experience and skills.")) ∧
    (rt.data.length ≤ 2000 → rt ≠ "" →
      get_agent_prompt agent_type candidate_name job_role experience_level
          question_number conversation_history is_first_question (some rt)
        = get_agent_prompt agent_type candidate_name job_role experience_level
            question_number conversation_history is_first_question none
          ++ ("\n\nCANDIDATE\x27S RESUME:\n" ++ rt ++ "\n" ++ ""
            ++ "\n\nUse this resume information to ask more personalized and relevant questions based on the candidate\x27s actual experience and skills.")) := by
  constructor
  · intro h
    have hne : rt.data.isEmpty = false := by
      cases hl : rt.data with
      | nil => rw [hl] at h; simp at h
      | cons c cs => rfl
    have hctx : resume_context (some rt)
        = "\n\nCANDIDATE\x27S RESUME:\n" ++ String.mk (rt.data.take 2000) ++ "\n"
          ++ "...(resume continues)"
          ++ "\n\nUse this resume information to ask more personalized and relevant questions based on the candidate\x27s actual experience and skills." := by
      simp only [resume_context]
      rw [if_neg (by simp [hne]), if_pos h]
    unfold get_agent_prompt
    rw [show resume_context none = "" from rfl, String.append_empty, hctx]
  · intro h hrt
    have hne : rt.data.isEmpty = false := ne_empty_isEmpty_false rt hrt
    have hctx : resume_context (some rt)
        = "\n\nCANDIDATE\x27S RESUME:\n" ++ rt ++ "\n" ++ ""
          ++ "\n\nUse this resume information to ask more personalized and relevant questions based on the candidate\x27s actual experience and skills." := by
      simp only [resume_context]
      rw [if_neg (by simp [hne]), if_neg (by omega), List.take_of_length_le h]
    unfold get_agent_prompt
    rw [show resume_context none = "" from rfl, String.append_empty, hctx]

set_option maxRecDepth 100000 in
/-- C9, witness: the theorem applied to a 2500-character resume (truncated,
with marker) and to a short resume (embedded in full, empty marker slot). -/
theorem claim_C9_witness :
    (2000 < longResume.data.length ∧
      get_agent_prompt PersonaType.technical "Ada" "Engineer" "Senior" 1
          "No previous conversation." false (some longResume)
        = get_agent_prompt PersonaType.technical "Ada" "Engineer" "Senior" 1
            "No previous conversation." false none
          ++ ("\n\nCANDIDATE\x27S RESUME:\n" ++ String.mk (longResume.data.take 2000) ++ "\n"
            ++ "...(resume continues)"
            ++ "\n\nUse this resume information to ask more personalized and relevant questions based on the candidate\x27s actual experience and skills.")) ∧
    (shortResume.data.length ≤ 2000 ∧ shortResume ≠ "" ∧
      get_agent_prompt PersonaType.hr "Ada" "Engineer" "Senior" 2
          "No previous conversation." true (some shortResume)
        = get_agent_prompt PersonaType.hr "Ada" "Engineer" "Senior" 2
            "No previous conversation." true none
          ++ ("\n\nCANDIDATE\x27S RESUME:\n" ++ shortResume ++ "\n" ++ ""
            ++ "\n\nUse this resume information to ask more personalized and relevant questions based on the candidate\x27s actual experience and skills.")) :=
  ⟨⟨by
      show 2000 < (List.replicate 2500 'a').length
      rw [List.length_replicate]
      norm_num,
    (claim_C9 PersonaType.technical "Ada" "Engineer" "Senior" 1
      "No previous conversation." false longResume).1 (by
        show 2000 < (List.replicate 2500 'a').length
        rw [List.length_replicate]
        norm_num)⟩,
   ⟨by decide, by decide,
    (claim_C9 PersonaType.hr "Ada" "Engineer" "Senior" 2
      "No previous conversation." true shortResume).2 (by decide) (by decide)⟩⟩
